import Mathlib

/-!
Verification development for the vscode-governor extension's CLI
process/transport core (GovernorClient), its capability negotiation, and the
correlator polling / hysteresis coordinator.

Shallow embedding notes:
- The JavaScript event loop is single threaded; an async function runs
  synchronously up to its first await.  Stateful async code is therefore
  modelled as explicit state transformers applied at the granularity of
  those synchronous segments, with external events (process close, abort
  firing, probe resolution, timer ticks) given as explicit event lists.
- Machine integers are modelled as Int/Nat (exit codes are small).
- Display-only string formatting (status bar text, tooltips) is omitted;
  every state field that any control-flow decision reads is modelled.
-/

namespace VGov

-- =========================================================================
-- Transport data model (src/governor/client.ts, part_012)
-- =========================================================================

/-- Raw output of one process execution: `{ stdout, stderr, exitCode }`. -/
structure RawResult where
  stdout : String
  stderr : String
  exitCode : Int
deriving DecidableEq

/-- Error taxonomy of the command client (spec section 7): spawn failure,
abort, non-zero exit, malformed JSON. -/
inductive GovError where
  | spawnFailure (msg : String)
  | aborted
  | commandFailed (exitCode : Int) (detail : String)
  | parseFailed (preview : String)
deriving DecidableEq

/-- External events observed by one `execute` call after its synchronous
setup: the child's `error` event, the child's `close` event (with the exit
code, `none` when the child was terminated by a signal), the abort signal
firing, and the spawn-option timeout expiring (the Node runtime then kills
the child). -/
inductive ExecEvent where
  | errorEvt (msg : String)
  | closeEvt (stdout stderr : String) (code : Option Int)
  | abortFires
  | timeoutExpires
deriving DecidableEq

/-- Settlement state of one `execute` promise plus whether `proc.kill()`
has been invoked on the child. `settled = none` means still pending. -/
structure ExecOutcome where
  settled : Option (Except GovError RawResult)
  killed : Bool

/-- One event handler step of `GovernorClient.execute` (part_012 lines
97-137).  The `error` handler rejects with a spawn failure; the `close`
handler resolves with the raw result, mapping a `null` exit code to 1
(`code ?? 1`); the abort listener (registered only when a signal was
passed) kills the child without settling; timeout expiry kills the child
(Node runtime behaviour of the `timeout` spawn option).  A promise settles
at most once: later settling events are ignored. -/
def execStep (hasSignal : Bool) (s : ExecOutcome) (e : ExecEvent) : ExecOutcome :=
  match e with
  | .errorEvt msg =>
    match s.settled with
    | some _ => s
    | none => { s with settled := some (Except.error (GovError.spawnFailure ("Failed to spawn governor: " ++ msg))) }
  | .closeEvt out err code =>
    match s.settled with
    | some _ => s
    | none => { s with settled := some (Except.ok ⟨out, err, code.getD 1⟩) }
  | .abortFires => if hasSignal then { s with killed := true } else s
  | .timeoutExpires => { s with killed := true }

/-- Synchronous part of `execute`: when a signal is passed and is already
aborted at call time, the child is killed and the promise rejects with
`Aborted` immediately (part_012 lines 123-128); otherwise the promise
starts pending. -/
def execInit (hasSignal preAborted : Bool) : ExecOutcome :=
  if hasSignal && preAborted then { settled := some (Except.error GovError.aborted), killed := true }
  else { settled := none, killed := false }

/-- Full settlement of one `execute` call against a list of external
events. -/
def runExecute (hasSignal preAborted : Bool) (events : List ExecEvent) : ExecOutcome :=
  events.foldl (execStep hasSignal) (execInit hasSignal preAborted)

/-- Interpretation layer of `execJson` (part_012 lines 143-153) applied to
a raw result: reject with `CommandFailed` on any non-zero exit (detail is
`stderr || stdout`, JS falsy-string semantics), otherwise parse stdout
(`JSON.parse` is abstracted as a `parse` function) and reject with
`ParseFailed` carrying a 200-character preview on parse failure. -/
def execJsonInterp {α : Type} (parse : String → Option α) (r : RawResult) : Except GovError α :=
  if r.exitCode ≠ 0 then
    Except.error (GovError.commandFailed r.exitCode (if r.stderr = "" then r.stdout else r.stderr))
  else
    match parse r.stdout with
    | some v => Except.ok v
    | none => Except.error (GovError.parseFailed (r.stdout.take 200))

/-- Modelled from the spec: the per-command exit-code policy of the V7.1
command client.  The source file containing `runDoctor` and its exit-code
special case is absent from the source tree (part_012 predates V7.1; the
tests in part_006 exercise `client.runDoctor` accepting exit code 1).
Per the spec, a command documented as "exit 1 means findings present" has
its exit code special-cased by its caller: exit codes in the command's
accepted set are parsed as JSON, all others fail uniformly as
`CommandFailed`. -/
def execJsonWithPolicy {α : Type} (okCodes : List Int) (parse : String → Option α)
    (r : RawResult) : Except GovError α :=
  if r.exitCode ∈ okCodes then
    match parse r.stdout with
    | some v => Except.ok v
    | none => Except.error (GovError.parseFailed (r.stdout.take 200))
  else
    Except.error (GovError.commandFailed r.exitCode (if r.stderr = "" then r.stdout else r.stderr))

/-- Modelled from the spec: exit codes accepted by the doctor command
("exit 1 means findings present"): 0 and 1. -/
def doctorOkCodes : List Int := [0, 1]

-- =========================================================================
-- Environment discipline (part_012 lines 54-59 and 100-106)
-- =========================================================================

/-- `CLI_ENV`: `NO_COLOR=1` always, plus `LC_ALL=C` on non-Windows
platforms (part_012 lines 56-59). -/
def cliEnv (isWin32 : Bool) : List (String × String) :=
  ("NO_COLOR", "1") :: (if isWin32 then [] else [("LC_ALL", "C")])

/-- Environment passed to every spawn: `{ ...process.env, ...CLI_ENV }` —
the CLI_ENV entries override the inherited environment (part_012
line 105). -/
def spawnEnv (isWin32 : Bool) (inherited : String → Option String) (k : String) : Option String :=
  match (cliEnv isWin32).lookup k with
  | some v => some v
  | none => inherited k

-- =========================================================================
-- Correlator polling / hysteresis coordinator
-- (V7.1 extension source, src/test/__mocks__/vscode.ts lines 279-363;
--  the V7.0 predecessor is part_009 lines 105-169)
-- =========================================================================

/-- Hysteresis counters and the persistent Problems-panel capture alert
maintained by `updateCorrelatorStatusBar`.  Module-level `let` bindings
`capturedConsecutive`, `okConsecutive` and the capture-alert diagnostic
entry (set by `setCaptureAlert`, removed by `clearCaptureAlert`). -/
structure HystState where
  capturedConsecutive : Nat
  okConsecutive : Nat
  alertSet : Bool
deriving DecidableEq

/-- Threshold clamping `Math.max(1, Math.min(10, configured))` applied to
`correlator.captureThreshold` and `correlator.clearThreshold`. -/
def clampThreshold (n : Nat) : Nat := max 1 (min 10 n)

/-- State effect of `updateCorrelatorStatusBar(status, isError)` (V7.1,
lines 279-332).  `status = none` models a null status: the bar is hidden
and, only when `isError` is false, the OK counter advances; an error
(`isError = true`) advances neither counter and leaves the alert as it
was.  With a status present, the captured flag drives the counter pair,
`showCapture` compares against the clamped capture threshold and sets the
Problems-panel alert, and otherwise the alert is cleared only once the OK
counter reaches the clamped clear threshold.  Status-bar text/tooltip
construction is display-only and omitted. -/
def updateCorrelatorStatusBar (captureThreshold clearThreshold : Nat)
    (status : Option Bool) (isError : Bool) (s : HystState) : HystState :=
  match status with
  | none =>
    if !isError then { s with okConsecutive := s.okConsecutive + 1, capturedConsecutive := 0 }
    else s
  | some isCaptured =>
    let s1 :=
      if isCaptured then { s with capturedConsecutive := s.capturedConsecutive + 1, okConsecutive := 0 }
      else { s with capturedConsecutive := 0, okConsecutive := s.okConsecutive + 1 }
    let showCapture := clampThreshold captureThreshold ≤ s1.capturedConsecutive
    if showCapture then { s1 with alertSet := true }
    else if clampThreshold clearThreshold ≤ s1.okConsecutive then { s1 with alertSet := false }
    else s1

/-- Hysteresis state at extension activation: both counters zero, no
capture alert present. -/
def hystInit : HystState := ⟨0, 0, false⟩

/-- One completed poll outcome as seen by `pollCorrelator`: `some b` is a
successful `getCorrelatorStatus` whose `is_captured` field is `b`
(forwarded to `updateCorrelatorStatusBar(status)`), `none` is a rejected
poll (forwarded as `updateCorrelatorStatusBar(null, true)`). -/
def pollOutcomeStep (captureThreshold clearThreshold : Nat) (s : HystState)
    (o : Option Bool) : HystState :=
  match o with
  | some b => updateCorrelatorStatusBar captureThreshold clearThreshold (some b) false s
  | none => updateCorrelatorStatusBar captureThreshold clearThreshold none true s

/-- Run a sequence of completed poll outcomes through the hysteresis
coordinator. -/
def runPollOutcomes (captureThreshold clearThreshold : Nat) (s : HystState)
    (outs : List (Option Bool)) : HystState :=
  outs.foldl (pollOutcomeStep captureThreshold clearThreshold) s

/-- Alerted-state trace: the Problems-panel alert flag observed after each
successive poll outcome. -/
def alertTrace (captureThreshold clearThreshold : Nat) (s : HystState) :
    List (Option Bool) → List Bool
  | [] => []
  | o :: os =>
    let s1 := pollOutcomeStep captureThreshold clearThreshold s o
    s1.alertSet :: alertTrace captureThreshold clearThreshold s1 os

/-- Spawn-level state of the correlator polling loop: number of
`getCorrelatorStatus` calls still pending and total processes spawned by
the loop. -/
structure PollLoopState where
  inFlightPolls : Nat
  spawnCount : Nat
deriving DecidableEq

/-- One interval tick of `startCorrelatorPolling`'s timer: the callback
invokes `pollCorrelator()` unconditionally, which always calls
`client.getCorrelatorStatus()` — spawning one child process — with no
check of any in-flight flag (V7.1 lines 334-356; identically part_009
lines 140-162). -/
def correlatorTick (s : PollLoopState) : PollLoopState :=
  { inFlightPolls := s.inFlightPolls + 1, spawnCount := s.spawnCount + 1 }

/-- Polling loop state when the timer starts. -/
def pollLoopInit : PollLoopState := ⟨0, 0⟩

-- =========================================================================
-- Capability negotiation (part_012 lines 70-227)
-- =========================================================================

/-- Capability flags probed per CLI subcommand (part_012 lines 41-49). -/
structure CapabilitySet where
  preflight : Bool
  correlator : Bool
  scope : Bool
  kernel : Bool
  oracle : Bool
  scar : Bool
  drift : Bool
deriving DecidableEq

/-- Client-side capability bookkeeping: the mutable fields of
`GovernorClient` read by `getCapabilities`/`updateConfig`, plus
instrumentation recording every issued `probeAll` invocation (its promise
identity and the executable path current when it was issued). -/
structure CapState where
  configPath : String
  capabilities : Option CapabilitySet
  capabilityProbe : Option Nat
  capabilitiesProbedFor : Option String
  nextProbeId : Nat
  probeSetsIssued : Nat
  issuedProbes : List (Nat × String)
deriving DecidableEq

/-- Capability state of a freshly constructed client with the given
executable path (part_012 lines 70-80). -/
def capInit (path : String) : CapState := ⟨path, none, none, none, 0, 0, []⟩

/-- What one `getCapabilities()` call observes at its single await point:
either an immediate return of the cached set, or suspension on the shared
pending-probe promise with the given identity. -/
inductive GCOutcome where
  | returned (caps : CapabilitySet)
  | awaiting (pid : Nat)
deriving DecidableEq

/-- Synchronous prefix of `getCapabilities()` (part_012 lines 187-201),
up to the `await this.capabilityProbe`: invalidate when the cached set was
probed for a different path, return the cache when present, otherwise
install a fresh `probeAll()` promise only when none is pending. -/
def gcStart (s : CapState) : CapState × GCOutcome :=
  let s :=
    if s.capabilities.isSome && s.capabilitiesProbedFor != some s.configPath then
      { s with capabilities := none, capabilityProbe := none }
    else s
  match s.capabilities with
  | some caps => (s, GCOutcome.returned caps)
  | none =>
    match s.capabilityProbe with
    | some pid => (s, GCOutcome.awaiting pid)
    | none =>
      ({ s with capabilityProbe := some s.nextProbeId,
                nextProbeId := s.nextProbeId + 1,
                probeSetsIssued := s.probeSetsIssued + 1,
                issuedProbes := (s.nextProbeId, s.configPath) :: s.issuedProbes },
       GCOutcome.awaiting s.nextProbeId)

/-- Resumption of a `getCapabilities()` caller after the awaited probe
promise resolves with `caps` (part_012 lines 203-206): store the result,
stamp `capabilitiesProbedFor` with the executable path current at resume
time, clear the pending-probe handle, and return the result. -/
def gcResume (s : CapState) (caps : CapabilitySet) : CapState × CapabilitySet :=
  ({ s with capabilities := some caps,
            capabilitiesProbedFor := some s.configPath,
            capabilityProbe := none },
   caps)

/-- `updateConfig` restricted to the `executablePath` field (part_012
lines 82-91): when a path is supplied and differs from the old one, the
capability cache, the pending-probe handle and the probed-for stamp are
all reset. -/
def updateConfigPath (s : CapState) (newPath : Option String) : CapState :=
  match newPath with
  | none => s
  | some p =>
    let changed := p != s.configPath
    let s1 := { s with configPath := p }
    if changed then
      { s1 with capabilities := none, capabilityProbe := none, capabilitiesProbedFor := none }
    else s1

/-- Iterate the synchronous prefix of `getCapabilities()` for a number of
concurrent callers arriving back to back on the event loop, collecting
each caller's observation. -/
def gcStartMany (s : CapState) : Nat → CapState × List GCOutcome
  | 0 => (s, [])
  | n + 1 =>
    ((gcStartMany (gcStart s).1 n).1, (gcStart s).2 :: (gcStartMany (gcStart s).1 n).2)

-- =========================================================================
-- Process tracking and disposal (part_012 lines 76, 97-137, 350-355)
-- =========================================================================

/-- Child processes the client has started and not yet seen close, next to
the contents of the client's `inflight` map (command key to process
handle). -/
structure ProcRegistry where
  running : List Nat
  inflight : List (String × Nat)
deriving DecidableEq

/-- Process registry of a freshly constructed client: the `inflight` map
starts empty (part_012 line 76). -/
def procRegistryInit : ProcRegistry := ⟨[], []⟩

/-- Spawn performed by `execute` (part_012 lines 97-137): the child is
started and begins running; no statement in `execute` inserts the process
into `this.inflight`. -/
def executeSpawn (s : ProcRegistry) (pid : Nat) : ProcRegistry :=
  { s with running := pid :: s.running }

/-- A child process closing on its own. -/
def procClose (s : ProcRegistry) (pid : Nat) : ProcRegistry :=
  { s with running := s.running.erase pid }

/-- `dispose()` (part_012 lines 350-355): kill every process held in the
`inflight` map, then clear the map.  Returns the new registry and the list
of process ids that received a kill. -/
def disposeClient (s : ProcRegistry) : ProcRegistry × List Nat :=
  ({ s with inflight := [] }, s.inflight.map Prod.snd)

-- =========================================================================
-- Typed command surface and backward-compat free functions
-- (part_012 lines 32-35, 70-80, 233-328, 362-374, 385-427)
-- =========================================================================

/-- Client configuration (part_012 lines 32-35). -/
structure GovernorClientConfig where
  executablePath : String
  cwd : String
deriving DecidableEq

/-- Stdin payload of a file check (src/governor/types.ts). -/
structure CheckInput where
  content : String
  filepath : String
deriving DecidableEq

/-- One fully determined transport invocation: executable, working
directory, argument array and optional stdin payload handed to
`execute`. -/
structure Invocation where
  exePath : String
  cwd : String
  args : List String
  stdinPayload : Option String
deriving DecidableEq

/-- Per-instance state of `GovernorClient` relevant to the command
surface: configuration, capability cache, pending-probe handle and the
`inflight` map. -/
structure Client where
  config : GovernorClientConfig
  capabilities : Option CapabilitySet
  capabilityProbe : Option Nat
  inflight : List (String × Nat)
deriving DecidableEq

/-- Construction `new GovernorClient(config)` (part_012 lines 78-80): the
capability cache, pending probe and `inflight` map all start empty. -/
def newGovernorClient (cfg : GovernorClientConfig) : Client := ⟨cfg, none, none, []⟩

/-- Options of `setIntent` (part_012 lines 362-368). -/
structure SetIntentOptions where
  profile : String
  scope : Option (List String)
  deny : Option (List String)
  timebox : Option Nat
  reason : Option String
deriving DecidableEq

/-- Filters of `getReceipts` (part_012 lines 370-374). -/
structure ReceiptFilterOptions where
  gate : Option String
  verdict : Option String
  last : Option Nat
deriving DecidableEq

/-- Build an invocation from a client's current config. -/
def Client.invoke (c : Client) (args : List String) (stdinPayload : Option String) : Invocation :=
  ⟨c.config.executablePath, c.config.cwd, args, stdinPayload⟩

/-- Method `checkFile` (part_012 lines 233-235). -/
def Client.checkFile (c : Client) (filePath : String) : Invocation :=
  c.invoke ["check", filePath, "--format", "json"] none

/-- Method `checkStdin` (part_012 lines 237-242); `JSON.stringify` is
abstracted as the `stringify` argument. -/
def Client.checkStdin (c : Client) (stringify : CheckInput → String) (input : CheckInput) : Invocation :=
  c.invoke ["check", "--stdin", "--format", "json"] (some (stringify input))

/-- Method `fetchState` (part_012 lines 248-250). -/
def Client.fetchState (c : Client) : Invocation :=
  c.invoke ["state", "--json", "--schema", "v2"] none

/-- Method `getIntent` (part_012 lines 256-258). -/
def Client.getIntent (c : Client) : Invocation :=
  c.invoke ["intent", "show", "--json"] none

/-- Argument array built by `setIntent` (part_012 lines 260-275).  The
`scope`/`deny` guards test JS truthiness of an optional array (an empty
array is truthy, and its loop then appends nothing); `timebox` is compared
against `undefined` explicitly; the `reason` guard tests string truthiness,
so an empty string appends nothing. -/
def setIntentArgs (o : SetIntentOptions) : List String :=
  ["intent", "set", "--profile", o.profile]
    ++ (match o.scope with
        | some ss => ss.flatMap (fun s => ["--scope", s])
        | none => [])
    ++ (match o.deny with
        | some ds => ds.flatMap (fun d => ["--deny", d])
        | none => [])
    ++ (match o.timebox with
        | some t => ["--timebox", toString t]
        | none => [])
    ++ (match o.reason with
        | some r => if r = "" then [] else ["--because", r]
        | none => [])

/-- Method `setIntent` (part_012 lines 260-275). -/
def Client.setIntent (c : Client) (o : SetIntentOptions) : Invocation :=
  c.invoke (setIntentArgs o) none

/-- Method `clearIntent` (part_012 lines 277-279). -/
def Client.clearIntent (c : Client) : Invocation :=
  c.invoke ["intent", "clear"] none

/-- Method `listOverrides` (part_012 lines 285-289). -/
def Client.listOverrides (c : Client) (includeAll : Bool) : Invocation :=
  c.invoke (["override", "list", "--json"] ++ (if includeAll then ["--all"] else [])) none

/-- Method `runCodeCompare` (part_012 lines 295-300): a truthy `runId`
selects `--id`, otherwise `--last`; an empty string is falsy in JS. -/
def Client.runCodeCompare (c : Client) (runId : Option String) : Invocation :=
  c.invoke
    (["interferometry", "compare"]
      ++ (match runId with
          | some r => if r = "" then ["--last"] else ["--id", r]
          | none => ["--last"])
      ++ ["--json"])
    none

/-- Method `runSelfcheck` (part_012 lines 306-310). -/
def Client.runSelfcheck (c : Client) (full : Bool) : Invocation :=
  c.invoke (["selfcheck", "--json"] ++ (if full then ["--full"] else [])) none

/-- Argument array built by `getReceipts` (part_012 lines 316-322):
`gate`/`verdict` guards test string truthiness, `last` is compared against
`undefined` explicitly. -/
def getReceiptsArgs (f : ReceiptFilterOptions) : List String :=
  ["receipts", "--json"]
    ++ (match f.gate with
        | some g => if g = "" then [] else ["--gate", g]
        | none => [])
    ++ (match f.verdict with
        | some v => if v = "" then [] else ["--verdict", v]
        | none => [])
    ++ (match f.last with
        | some n => ["--last", toString n]
        | none => [])

/-- Method `getReceipts` (part_012 lines 316-322). -/
def Client.getReceipts (c : Client) (f : ReceiptFilterOptions) : Invocation :=
  c.invoke (getReceiptsArgs f) none

/-- Method `getReceiptDetail` (part_012 lines 324-328). -/
def Client.getReceiptDetail (c : Client) (receiptId : String) (includeEvidence : Bool) : Invocation :=
  c.invoke (["receipts", "--id", receiptId, "--json"]
    ++ (if includeEvidence then ["--evidence"] else [])) none

-- Backward-compat free functions (part_012 lines 385-427): each
-- constructs a throwaway client from the given config and calls the
-- corresponding method on it.

/-- Free function `checkFile(filePath, opts)` (part_012 lines 385-387). -/
def checkFile (filePath : String) (opts : GovernorClientConfig) : Invocation :=
  (newGovernorClient opts).checkFile filePath

/-- Free function `checkStdin(input, opts)` (part_012 lines 389-391). -/
def checkStdin (stringify : CheckInput → String) (input : CheckInput)
    (opts : GovernorClientConfig) : Invocation :=
  (newGovernorClient opts).checkStdin stringify input

/-- Free function `fetchState(opts)` (part_012 lines 393-395). -/
def fetchState (opts : GovernorClientConfig) : Invocation :=
  (newGovernorClient opts).fetchState

/-- Free function `getIntent(opts)` (part_012 lines 397-399). -/
def getIntent (opts : GovernorClientConfig) : Invocation :=
  (newGovernorClient opts).getIntent

/-- Free function `setIntent(opts, intentOpts)` (part_012 lines 401-403). -/
def setIntent (opts : GovernorClientConfig) (intentOpts : SetIntentOptions) : Invocation :=
  (newGovernorClient opts).setIntent intentOpts

/-- Free function `clearIntent(opts)` (part_012 lines 405-407). -/
def clearIntent (opts : GovernorClientConfig) : Invocation :=
  (newGovernorClient opts).clearIntent

/-- Free function `listOverrides(opts, includeAll = false)` (part_012
lines 409-411). -/
def listOverrides (opts : GovernorClientConfig) (includeAll : Bool) : Invocation :=
  (newGovernorClient opts).listOverrides includeAll

/-- Free function `runCodeCompare(opts, runId?)` (part_012 lines
413-415). -/
def runCodeCompare (opts : GovernorClientConfig) (runId : Option String) : Invocation :=
  (newGovernorClient opts).runCodeCompare runId

/-- Free function `runSelfcheck(opts, selfcheckOpts = {})` (part_012 lines
417-419): passes `selfcheckOpts.full` to the method, whose JS default
substitutes `false` when the field is `undefined`. -/
def runSelfcheck (opts : GovernorClientConfig) (full : Option Bool) : Invocation :=
  (newGovernorClient opts).runSelfcheck (full.getD false)

/-- Free function `getReceipts(opts, filters = {})` (part_012 lines
421-423). -/
def getReceipts (opts : GovernorClientConfig) (filters : ReceiptFilterOptions) : Invocation :=
  (newGovernorClient opts).getReceipts filters

/-- Free function `getReceiptDetail(opts, receiptId, includeEvidence =
false)` (part_012 lines 425-427). -/
def getReceiptDetail (opts : GovernorClientConfig) (receiptId : String)
    (includeEvidence : Bool) : Invocation :=
  (newGovernorClient opts).getReceiptDetail receiptId includeEvidence

-- =========================================================================
-- Helper lemmas about the execute settlement model
-- =========================================================================

/-- A settled promise is never re-settled by a later event. -/
theorem execStep_settled_frozen (hs : Bool) (s : ExecOutcome) (e : ExecEvent)
    (x : Except GovError RawResult) (h : s.settled = some x) :
    (execStep hs s e).settled = some x := by
  cases e with
  | errorEvt m => simp [execStep, h]
  | closeEvt a b c => simp [execStep, h]
  | abortFires => cases hs <;> simp [execStep, h]
  | timeoutExpires => simp [execStep, h]

/-- Folding any events over a settled promise keeps its settlement. -/
theorem foldl_settled_frozen (hs : Bool) (evs : List ExecEvent) :
    ∀ (s : ExecOutcome) (x : Except GovError RawResult), s.settled = some x →
      (evs.foldl (execStep hs) s).settled = some x := by
  induction evs with
  | nil => intro s x h; exact h
  | cons ev t ih =>
    intro s x h
    exact ih (execStep hs s ev) x (execStep_settled_frozen hs s ev x h)

/-- No event un-kills a killed child. -/
theorem execStep_killed_mono (hs : Bool) (s : ExecOutcome) (e : ExecEvent)
    (h : s.killed = true) : (execStep hs s e).killed = true := by
  cases e with
  | errorEvt m => cases hs0 : s.settled <;> simp [execStep, hs0, h]
  | closeEvt a b c => cases hs0 : s.settled <;> simp [execStep, hs0, h]
  | abortFires => cases hs <;> simp [execStep, h]
  | timeoutExpires => simp [execStep]

/-- Folding events preserves the killed flag. -/
theorem foldl_killed_mono (hs : Bool) (evs : List ExecEvent) :
    ∀ (s : ExecOutcome), s.killed = true → (evs.foldl (execStep hs) s).killed = true := by
  induction evs with
  | nil => intro s h; exact h
  | cons ev t ih => intro s h; exact ih (execStep hs s ev) (execStep_killed_mono hs s ev h)

/-- When the signal is wired, an abort firing anywhere in the event list
leaves the child killed. -/
theorem foldl_killed_of_abort_mem (evs : List ExecEvent) :
    ∀ (s : ExecOutcome), ExecEvent.abortFires ∈ evs →
      (evs.foldl (execStep true) s).killed = true := by
  induction evs with
  | nil => intro s h; simp at h
  | cons ev t ih =>
    intro s h
    rcases List.mem_cons.mp h with heq | ht
    · subst heq
      exact foldl_killed_mono true t (execStep true s ExecEvent.abortFires) (by simp [execStep])
    · exact ih (execStep true s ev) ht

/-- When the signal is wired, the runtime timeout expiring anywhere in the
event list leaves the child killed. -/
theorem foldl_killed_of_timeout_mem (evs : List ExecEvent) :
    ∀ (s : ExecOutcome), ExecEvent.timeoutExpires ∈ evs →
      (evs.foldl (execStep true) s).killed = true := by
  induction evs with
  | nil => intro s h; simp at h
  | cons ev t ih =>
    intro s h
    rcases List.mem_cons.mp h with heq | ht
    · subst heq
      exact foldl_killed_mono true t (execStep true s ExecEvent.timeoutExpires) (by simp [execStep])
    · exact ih (execStep true s ev) ht

/-- Any rejection produced while folding events is a spawn failure, unless
it was already present in the starting state. -/
theorem foldl_settled_error_inv (hs : Bool) (evs : List ExecEvent) :
    ∀ (s : ExecOutcome) (e : GovError),
      (evs.foldl (execStep hs) s).settled = some (Except.error e) →
      s.settled = some (Except.error e) ∨ ∃ msg, e = GovError.spawnFailure msg := by
  induction evs with
  | nil => intro s e h; exact Or.inl h
  | cons ev t ih =>
    intro s e h
    rcases ih (execStep hs s ev) e h with h1 | h2
    · cases ev with
      | errorEvt m =>
        cases hs0 : s.settled with
        | some x => rw [show execStep hs s (ExecEvent.errorEvt m) = s from by simp [execStep, hs0]] at h1; exact Or.inl (hs0 ▸ h1)
        | none =>
          right
          have hset : (execStep hs s (ExecEvent.errorEvt m)).settled
              = some (Except.error (GovError.spawnFailure ("Failed to spawn governor: " ++ m))) := by
            simp [execStep, hs0]
          rw [hset] at h1
          exact ⟨"Failed to spawn governor: " ++ m, by injection h1 with h1; injection h1 with h1; exact h1.symm⟩
      | closeEvt a b c =>
        cases hs0 : s.settled with
        | some x => rw [show execStep hs s (ExecEvent.closeEvt a b c) = s from by simp [execStep, hs0]] at h1; exact Or.inl (hs0 ▸ h1)
        | none =>
          have hset : (execStep hs s (ExecEvent.closeEvt a b c)).settled
              = some (Except.ok ⟨a, b, c.getD 1⟩) := by simp [execStep, hs0]
          rw [hset] at h1
          exact absurd h1 (by simp)
      | abortFires =>
        left
        cases hs <;> simpa [execStep] using h1
      | timeoutExpires =>
        left
        simpa [execStep] using h1
    · exact Or.inr h2

-- =========================================================================
-- Claim theorems
-- =========================================================================

/-- C1: for a command documented as "exit 1 means findings present" (the
doctor command, accepted exit codes 0 and 1), the policy-aware execJson
returns the parsed payload on exit 1 with valid JSON, fails with
ParseFailed on exit 1 with invalid JSON, and fails with CommandFailed on
every exit code greater than or equal to 2 regardless of payload
validity. -/
theorem execJson_doctor_exit_code_policy :
    ∀ {α : Type} (parse : String → Option α) (r : RawResult) (v : α),
      (r.exitCode = 1 → parse r.stdout = some v →
        execJsonWithPolicy doctorOkCodes parse r = Except.ok v)
      ∧ (r.exitCode = 1 → parse r.stdout = none →
        execJsonWithPolicy doctorOkCodes parse r
          = Except.error (GovError.parseFailed (r.stdout.take 200)))
      ∧ (2 ≤ r.exitCode →
        execJsonWithPolicy doctorOkCodes parse r
          = Except.error (GovError.commandFailed r.exitCode
              (if r.stderr = "" then r.stdout else r.stderr))) := by
  intro α parse r v
  refine ⟨?_, ?_, ?_⟩
  · intro h1 h2
    simp [execJsonWithPolicy, doctorOkCodes, h1, h2]
  · intro h1 h2
    simp [execJsonWithPolicy, doctorOkCodes, h1, h2]
  · intro h
    have hne : r.exitCode ∉ doctorOkCodes := by
      intro hmem
      have h01 : r.exitCode = 0 ∨ r.exitCode = 1 := by simpa [doctorOkCodes] using hmem
      omega
    simp [execJsonWithPolicy, hne]

/-- C1 witness: concrete evaluations at exit 1 with valid JSON, exit 1
with invalid JSON, and exit 2. -/
theorem execJson_doctor_exit_code_policy_witness :
    execJsonWithPolicy doctorOkCodes (fun s => if s = "[]" then some 0 else none)
        ⟨"[]", "", 1⟩ = Except.ok 0
    ∧ execJsonWithPolicy doctorOkCodes (fun s => if s = "[]" then some (0 : Nat) else none)
        ⟨"oops", "", 1⟩ = Except.error (GovError.parseFailed ("oops".take 200))
    ∧ execJsonWithPolicy doctorOkCodes (fun s => if s = "[]" then some (0 : Nat) else none)
        ⟨"[]", "boom", 2⟩ = Except.error (GovError.commandFailed 2 "boom") := by
  refine ⟨?_, ?_, ?_⟩
  · exact (execJson_doctor_exit_code_policy (fun s => if s = "[]" then some 0 else none)
      ⟨"[]", "", 1⟩ 0).1 rfl (by decide)
  · exact (execJson_doctor_exit_code_policy (fun s => if s = "[]" then some (0 : Nat) else none)
      ⟨"oops", "", 1⟩ 0).2.1 rfl (by decide)
  · have := (execJson_doctor_exit_code_policy (fun s => if s = "[]" then some (0 : Nat) else none)
      ⟨"[]", "boom", 2⟩ 0).2.2 (by decide)
    simpa using this

/-- C2: evaluation at the failing input.  A second interval tick issued
while the first correlator poll is still in flight spawns an additional
process: `pollCorrelator` contains no in-flight check, so every tick
unconditionally spawns one more `getCorrelatorStatus` child, contradicting
the claimed skip-when-in-flight invariant. -/
theorem correlator_second_tick_spawns_again :
    (correlatorTick pollLoopInit).inFlightPolls = 1
    ∧ (correlatorTick (correlatorTick pollLoopInit)).spawnCount
        = (correlatorTick pollLoopInit).spawnCount + 1
    ∧ (∀ s, (correlatorTick s).spawnCount = s.spawnCount + 1) :=
  ⟨rfl, rfl, fun _ => rfl⟩

/-- C3: evaluation at the failing input.  After `execute` spawns a child
(process id 0) that has not yet closed, `dispose()` kills nothing — the
kill list is empty because `execute` never inserts the child into the
`inflight` map — so the running child outlives the client's disposal. -/
theorem dispose_does_not_kill_spawned_process :
    (disposeClient (executeSpawn procRegistryInit 0)).2 = []
    ∧ 0 ∈ (executeSpawn procRegistryInit 0).running
    ∧ (∀ s pid, (executeSpawn s pid).inflight = s.inflight) :=
  ⟨rfl, by simp [executeSpawn, procRegistryInit], fun _ _ => rfl⟩

/-- C5: with capture threshold 3 and clear threshold 3, the poll outcome
sequence [false, true, true, true, false, false, false] yields the alerted
trace [false, false, false, true, true, true, false] — the alert flips on
at 0-based index 3, persists through indices 4 and 5, and clears only at
index 6 — and a poll error is a no-op on the hysteresis state: inserting
one anywhere in a sequence advances neither counter and changes no
result. -/
theorem correlator_hysteresis_trace :
    alertTrace 3 3 hystInit
        [some false, some true, some true, some true, some false, some false, some false]
      = [false, false, false, true, true, true, false]
    ∧ (∀ ct clt s, updateCorrelatorStatusBar ct clt none true s = s)
    ∧ (∀ ct clt s pre post,
        runPollOutcomes ct clt s (pre ++ none :: post) = runPollOutcomes ct clt s (pre ++ post)) := by
  refine ⟨by decide, fun _ _ _ => rfl, ?_⟩
  intro ct clt s pre post
  unfold runPollOutcomes
  rw [List.foldl_append, List.foldl_append, List.foldl_cons]
  rfl

/-- C9: every spawned child's environment carries NO_COLOR=1, carries
LC_ALL=C on non-Windows platforms, and is otherwise the inherited
environment (CLI_ENV is merged over it). -/
theorem spawn_env_discipline :
    ∀ (isWin32 : Bool) (inherited : String → Option String),
      spawnEnv isWin32 inherited "NO_COLOR" = some "1"
      ∧ (isWin32 = false → spawnEnv isWin32 inherited "LC_ALL" = some "C")
      ∧ (∀ k, k ≠ "NO_COLOR" → k ≠ "LC_ALL" → spawnEnv isWin32 inherited k = inherited k) := by
  intro w inh
  refine ⟨?_, ?_, ?_⟩
  · cases w <;> rfl
  · intro h; subst h; rfl
  · intro k h1 h2
    have hb1 : (k == "NO_COLOR") = false := beq_eq_false_iff_ne.mpr h1
    have hb2 : (k == "LC_ALL") = false := beq_eq_false_iff_ne.mpr h2
    cases w <;> simp [spawnEnv, cliEnv, List.lookup, hb1, hb2]

/-- C9 witness: concrete non-Windows environment lookups. -/
theorem spawn_env_discipline_witness :
    spawnEnv false (fun _ => some "inherited") "LC_ALL" = some "C"
    ∧ spawnEnv false (fun _ => some "inherited") "PATH" = some "inherited" := by
  refine ⟨?_, ?_⟩
  · exact (spawn_env_discipline false (fun _ => some "inherited")).2.1 rfl
  · exact (spawn_env_discipline false (fun _ => some "inherited")).2.2 "PATH"
      (by decide) (by decide)

/-- C10: each backward-compat free function, applied to a config, issues
exactly the invocation of the corresponding method on a freshly
constructed GovernorClient with that config, and the fresh client carries
no capability cache, no pending probe, and an empty in-flight map — so
nothing is shared between two free-function calls. -/
theorem free_functions_match_fresh_client :
    ∀ (cfg : GovernorClientConfig),
      (∀ fp, checkFile fp cfg = (newGovernorClient cfg).checkFile fp)
      ∧ (∀ stringify input, checkStdin stringify input cfg
          = (newGovernorClient cfg).checkStdin stringify input)
      ∧ fetchState cfg = (newGovernorClient cfg).fetchState
      ∧ getIntent cfg = (newGovernorClient cfg).getIntent
      ∧ (∀ o, setIntent cfg o = (newGovernorClient cfg).setIntent o)
      ∧ clearIntent cfg = (newGovernorClient cfg).clearIntent
      ∧ (∀ b, listOverrides cfg b = (newGovernorClient cfg).listOverrides b)
      ∧ (∀ rid, runCodeCompare cfg rid = (newGovernorClient cfg).runCodeCompare rid)
      ∧ (∀ fo, runSelfcheck cfg fo = (newGovernorClient cfg).runSelfcheck (fo.getD false))
      ∧ (∀ f, getReceipts cfg f = (newGovernorClient cfg).getReceipts f)
      ∧ (∀ rid ev, getReceiptDetail cfg rid ev
          = (newGovernorClient cfg).getReceiptDetail rid ev)
      ∧ (newGovernorClient cfg).capabilities = none
      ∧ (newGovernorClient cfg).capabilityProbe = none
      ∧ (newGovernorClient cfg).inflight = [] :=
  fun _ =>
    ⟨fun _ => rfl, fun _ _ => rfl, rfl, rfl, fun _ => rfl, rfl, fun _ => rfl,
     fun _ => rfl, fun _ => rfl, fun _ => rfl, fun _ _ => rfl, rfl, rfl, rfl⟩

/-- Fixpoint fact: once the first `getCapabilities()` caller has installed
the shared probe, every further synchronous-prefix run leaves the state
unchanged and awaits the same probe handle. -/
theorem gcStart_after_first (p : String) :
    gcStart ((gcStart (capInit p)).1) = ((gcStart (capInit p)).1, GCOutcome.awaiting 0) := rfl

/-- Iterating the synchronous prefix on the post-first-caller state issues
no further probes and hands every caller the same handle. -/
theorem gcStartMany_after_first (p : String) :
    ∀ m, gcStartMany ((gcStart (capInit p)).1) m
      = ((gcStart (capInit p)).1, List.replicate m (GCOutcome.awaiting 0)) := by
  intro m
  induction m with
  | zero => rfl
  | succ k ih =>
    show ((gcStartMany (gcStart ((gcStart (capInit p)).1)).1 k).1,
        (gcStart ((gcStart (capInit p)).1)).2
          :: (gcStartMany (gcStart ((gcStart (capInit p)).1)).1 k).2)
      = _
    rw [gcStart_after_first, ih]
    rfl

/-- C6: when getCapabilities() is called n times (n at least 1, in
particular any n at least 2) back to back before the first probe resolves,
exactly one probeAll invocation is issued, every caller awaits the same
shared pending-probe handle, and resuming after the probe settles clears
that handle. -/
theorem getCapabilities_concurrent_single_probe :
    ∀ (p : String) (n : Nat), 1 ≤ n →
      (gcStartMany (capInit p) n).1.probeSetsIssued = 1
      ∧ (gcStartMany (capInit p) n).2 = List.replicate n (GCOutcome.awaiting 0)
      ∧ ∀ caps, (gcResume (gcStartMany (capInit p) n).1 caps).1.capabilityProbe = none := by
  intro p n hn
  obtain ⟨m, rfl⟩ : ∃ m, n = m + 1 := ⟨n - 1, by omega⟩
  have hstep : gcStartMany (capInit p) (m + 1)
      = ((gcStartMany ((gcStart (capInit p)).1) m).1,
         (gcStart (capInit p)).2 :: (gcStartMany ((gcStart (capInit p)).1) m).2) := rfl
  rw [hstep, gcStartMany_after_first]
  exact ⟨rfl, rfl, fun _ => rfl⟩

/-- C6 witness: three concurrent callers, one probe set. -/
theorem getCapabilities_concurrent_single_probe_witness :
    (gcStartMany (capInit "governor") 3).1.probeSetsIssued = 1
    ∧ (gcStartMany (capInit "governor") 3).2 = List.replicate 3 (GCOutcome.awaiting 0)
    ∧ ∀ caps, (gcResume (gcStartMany (capInit "governor") 3).1 caps).1.capabilityProbe = none :=
  getCapabilities_concurrent_single_probe "governor" 3 (by decide)

/-- Concrete capability set used in capability-cache scenarios. -/
def capsAllTrue : CapabilitySet := ⟨true, true, true, true, true, true, true⟩

/-- C7: evaluation at the failing input.  Trace: getCapabilities() starts
(issuing probe 0 while the executable path is "P"); updateConfig replaces
the path with "Q" (resetting cache, probe handle and stamp); the old probe
resolves and the suspended caller resumes, re-caching the probe-0 result
and stamping it as probed for "Q"; the next getCapabilities() call then
returns that stale set immediately — no fresh probe is issued
(probeSetsIssued stays 1) even though probe 0 ran for the previous
executable "P". -/
theorem getCapabilities_stale_after_config_change_during_probe :
    (gcStart ((gcResume (updateConfigPath ((gcStart (capInit "P")).1) (some "Q")) capsAllTrue).1)).2
      = GCOutcome.returned capsAllTrue
    ∧ (gcStart ((gcResume (updateConfigPath ((gcStart (capInit "P")).1) (some "Q")) capsAllTrue).1)).1.probeSetsIssued
      = 1
    ∧ ((gcResume (updateConfigPath ((gcStart (capInit "P")).1) (some "Q")) capsAllTrue).1).capabilitiesProbedFor
      = some "Q"
    ∧ ((gcStart (capInit "P")).1).issuedProbes.lookup 0 = some "P"
    ∧ "P" ≠ "Q" := by
  refine ⟨by decide, by decide, by decide, by decide, by decide⟩

/-- C8: the transport's execute rejects only with a spawn-failure-kind or
aborted-kind error (never a non-zero-exit kind), the aborted rejection
occurring only when the passed signal had fired before the call; and
whenever the process runs to completion while the promise is still
pending, it resolves with the full raw result for any exit code. -/
theorem execute_transport_reject_contract :
    ∀ (hasSignal preAborted : Bool) (events : List ExecEvent),
      (∀ e, (runExecute hasSignal preAborted events).settled = some (Except.error e) →
        (∃ msg, e = GovError.spawnFailure msg)
        ∨ (e = GovError.aborted ∧ hasSignal = true ∧ preAborted = true))
      ∧ (∀ out err code,
        (runExecute hasSignal preAborted events).settled = none →
        (runExecute hasSignal preAborted (events ++ [ExecEvent.closeEvt out err code])).settled
          = some (Except.ok ⟨out, err, code.getD 1⟩)) := by
  intro hs pa evs
  constructor
  · intro e h
    rcases foldl_settled_error_inv hs evs (execInit hs pa) e h with h1 | h2
    · right
      unfold execInit at h1
      by_cases hc : (hs && pa) = true
      · rw [if_pos hc] at h1
        have he : e = GovError.aborted := by
          injection h1 with h1; injection h1 with h1; exact h1.symm
        have hsp : hs = true ∧ pa = true := by simpa using hc
        exact ⟨he, hsp⟩
      · rw [if_neg hc] at h1
        exact absurd h1 (by simp)
    · exact Or.inl h2
  · intro out err code h
    unfold runExecute at h ⊢
    rw [List.foldl_append]
    have hpend : (List.foldl (execStep hs) (execInit hs pa) evs).settled = none := h
    simp [execStep, hpend]

/-- C8 witness: a pre-aborted call rejects with the aborted kind, and a
clean close with exit code 3 resolves with the full raw result. -/
theorem execute_transport_reject_contract_witness :
    ((∃ msg, GovError.aborted = GovError.spawnFailure msg)
      ∨ (GovError.aborted = GovError.aborted ∧ true = true ∧ true = true))
    ∧ (runExecute false false [ExecEvent.closeEvt "out" "err" (some 3)]).settled
        = some (Except.ok ⟨"out", "err", 3⟩) := by
  constructor
  · exact (execute_transport_reject_contract true true []).1 GovError.aborted rfl
  · exact (execute_transport_reject_contract false false []).2 "out" "err" (some 3) rfl

/-- C4 counterexample: a cancellation signal that fires after spawn but
before completion kills the child, yet the pending promise settles by
RESOLVING with exit code 1 (close reports a null code, mapped by
`code ?? 1`) — not with an Aborted-kind failure — and that settlement is
identical to the one produced by a clean exit with code 1. -/
theorem execute_late_abort_resolves_like_clean_exit1 :
    (runExecute true false [ExecEvent.abortFires, ExecEvent.closeEvt "" "" none]).killed = true
    ∧ (runExecute true false [ExecEvent.abortFires, ExecEvent.closeEvt "" "" none]).settled
        = some (Except.ok ⟨"", "", 1⟩)
    ∧ (runExecute true false [ExecEvent.abortFires, ExecEvent.closeEvt "" "" none]).settled
        = (runExecute false false [ExecEvent.closeEvt "" "" (some 1)]).settled
    ∧ (runExecute true false [ExecEvent.abortFires, ExecEvent.closeEvt "" "" none]).settled
        ≠ some (Except.error GovError.aborted) := by
  refine ⟨rfl, rfl, rfl, ?_⟩
  intro h
  rw [show (runExecute true false [ExecEvent.abortFires, ExecEvent.closeEvt "" "" none]).settled
      = some (Except.ok ⟨"", "", 1⟩) from rfl] at h
  simp at h

/-- C4 amended: a signal already aborted at call time kills the child and
settles the promise with an Aborted-kind failure regardless of later
events; a signal firing (or the spawn timeout expiring) after spawn but
before completion kills the child, but the promise then settles by
resolving with the close result whose null exit code maps to 1 —
surfacing downstream as a command failure indistinguishable from a clean
exit 1, not as an Aborted-kind failure. -/
theorem execute_abort_semantics_amended :
    ∀ (evs : List ExecEvent) (out err : String),
      ((runExecute true true evs).settled = some (Except.error GovError.aborted)
        ∧ (runExecute true true evs).killed = true)
      ∧ (ExecEvent.abortFires ∈ evs → (runExecute true false evs).killed = true)
      ∧ (ExecEvent.timeoutExpires ∈ evs → (runExecute true false evs).killed = true)
      ∧ ((runExecute true false evs).settled = none →
          (runExecute true false (evs ++ [ExecEvent.closeEvt out err none])).settled
            = some (Except.ok ⟨out, err, 1⟩)) := by
  intro evs out err
  refine ⟨⟨?_, ?_⟩, ?_, ?_, ?_⟩
  · exact foldl_settled_frozen true evs (execInit true true) _ rfl
  · exact foldl_killed_mono true evs (execInit true true) rfl
  · intro hmem
    exact foldl_killed_of_abort_mem evs (execInit true false) hmem
  · intro hmem
    exact foldl_killed_of_timeout_mem evs (execInit true false) hmem
  · intro h
    exact (execute_transport_reject_contract true false evs).2 out err none h

/-- C4 amended witness: with the single event of the signal firing after
spawn, the child is killed, and a subsequent null-code close resolves with
exit code 1. -/
theorem execute_abort_semantics_amended_witness :
    (runExecute true false [ExecEvent.abortFires]).killed = true
    ∧ (runExecute true false ([ExecEvent.abortFires] ++ [ExecEvent.closeEvt "" "" none])).settled
        = some (Except.ok ⟨"", "", 1⟩) := by
  constructor
  · exact (execute_abort_semantics_amended [ExecEvent.abortFires] "" "").2.1 (by simp)
  · exact (execute_abort_semantics_amended [ExecEvent.abortFires] "" "").2.2.2 rfl

end VGov
